import Mathlib

/-!
Verification of the AISWEI/Solplanet cloud API client.

Shallow embedding of the two source modules:
* aiswei_api.py     — signed request builder (AisweiSolarAPI) and its operation catalog;
* openhab_solplanet.py — telemetry normalizer (is_api_success, extract_live_data, main).

Python strings are modelled as Lean String values; Python floats as rational
numbers (the normalizer only performs exact decimal scaling, so every value the
claims touch is represented exactly); fallible Python code (code that can raise)
is modelled with Except.  All definitions are structural recursions so concrete
instances evaluate inside the kernel.
-/

/-! ### Python string primitives used by the source -/

/-- Python str.split(sep) for a one-character separator:
"a?b?c".split('?') = ["a","b","c"], keeping empty pieces. -/
def pySplit (s : String) (sep : Char) : List String :=
  (List.splitOn sep s.data).map (fun cs => ⟨cs⟩)

/-- Python (c in s) membership test for a single character. -/
def strContains (s : String) (c : Char) : Bool :=
  s.data.contains c

/-- Lexicographic comparison of character lists by code point, the order Python
uses to compare strings. -/
def charListLe : List Char → List Char → Bool
  | [], _ => true
  | _ :: _, [] => false
  | a :: as, b :: bs =>
    if a < b then true else if b < a then false else charListLe as bs

/-- Python string ≤ (lexicographic by code point). -/
def strLe (a b : String) : Bool := charListLe a.data b.data

/-- Insert a string into an already sorted list (kept stable). -/
def insertSorted (x : String) : List String → List String
  | [] => [x]
  | y :: ys => if strLe x y then x :: y :: ys else y :: insertSorted x ys

/-- Insertion sort over strings; models Python sorted(list_of_str), which sorts
lexicographically by code point. -/
def sortStrings : List String → List String
  | [] => []
  | x :: xs => insertSorted x (sortStrings xs)

/-! ### Byte-level primitives: UTF-8, SHA-256, HMAC, Base64.
These model the Python standard library calls made by aiswei_api.py
(str.encode('utf-8'), hashlib.sha256 via hmac.new(...).digest(), and
base64.b64encode).  Bytes are Nat values < 256; 32-bit words are Nat values
reduced mod 2^32 at every arithmetic step. -/

/-- Truncate to a 32-bit word. -/
def w32 (n : Nat) : Nat := n % 4294967296

/-- 32-bit rotate right. -/
def rotr32 (n x : Nat) : Nat := w32 ((x >>> n) ||| (x <<< (32 - n)))

/-- UTF-8 encoding of one code point (1 to 4 bytes). -/
def utf8EncodeChar (ch : Char) : List Nat :=
  let n := ch.toNat
  if n < 0x80 then [n]
  else if n < 0x800 then [0xC0 ||| (n >>> 6), 0x80 ||| (n &&& 0x3F)]
  else if n < 0x10000 then
    [0xE0 ||| (n >>> 12), 0x80 ||| ((n >>> 6) &&& 0x3F), 0x80 ||| (n &&& 0x3F)]
  else
    [0xF0 ||| (n >>> 18), 0x80 ||| ((n >>> 12) &&& 0x3F),
     0x80 ||| ((n >>> 6) &&& 0x3F), 0x80 ||| (n &&& 0x3F)]

/-- Python str.encode('utf-8') as a byte list. -/
def utf8Bytes (s : String) : List Nat :=
  (s.data.map utf8EncodeChar).flatten

/-- SHA-256 round constants (the usual table 0x428a2f98, 0x71374491, ...,
0xc67178f2 written in decimal). -/
def shaK : List Nat :=
  [1116352408, 1899447441, 3049323471, 3921009573, 961987163, 1508970993,
   2453635748, 2870763221, 3624381080, 310598401, 607225278, 1426881987,
   1925078388, 2162078206, 2614888103, 3248222580, 3835390401, 4022224774,
   264347078, 604807628, 770255983, 1249150122, 1555081692, 1996064986,
   2554220882, 2821834349, 2952996808, 3210313671, 3336571891, 3584528711,
   113926993, 338241895, 666307205, 773529912, 1294757372, 1396182291,
   1695183700, 1986661051, 2177026350, 2456956037, 2730485921, 2820302411,
   3259730800, 3345764771, 3516065817, 3600352804, 4094571909, 275423344,
   430227734, 506948616, 659060556, 883997877, 958139571, 1322822218,
   1537002063, 1747873779, 1955562222, 2024104815, 2227730452, 2361852424,
   2428436474, 2756734187, 3204031479, 3329325298]

/-- SHA-256 initial hash state (0x6a09e667 ... 0x5be0cd19 in decimal). -/
def shaH0 : List Nat :=
  [1779033703, 3144134277, 1013904242, 2773480762, 1359893119, 2600822924,
   528734635, 1541459225]

/-- Group bytes into big-endian 32-bit words. -/
def bytesToWordsBE : List Nat → List Nat
  | b0 :: b1 :: b2 :: b3 :: rest =>
    ((b0 <<< 24) + (b1 <<< 16) + (b2 <<< 8) + b3) :: bytesToWordsBE rest
  | _ => []

/-- Big-endian byte expansion of a number into exactly k bytes. -/
def natToBytesBE : Nat → Nat → List Nat
  | 0, _ => []
  | k + 1, n => natToBytesBE k (n >>> 8) ++ [n % 256]

/-- SHA-256 message padding: 0x80, zeros, then the 64-bit bit length. -/
def sha256Pad (msg : List Nat) : List Nat :=
  let len := msg.length
  let zeros := (119 - (len % 64)) % 64
  msg ++ (128 :: List.replicate zeros 0) ++ natToBytesBE 8 (8 * len)

/-- Split a byte list into 64-byte blocks (fuelled so it stays structural). -/
def chunks64Go : Nat → List Nat → List (List Nat)
  | 0, _ => []
  | _, [] => []
  | fuel + 1, x :: xs => (x :: xs.take 63) :: chunks64Go fuel (xs.drop 63)

/-- Split a byte list into 64-byte blocks. -/
def chunks64 (l : List Nat) : List (List Nat) := chunks64Go l.length l

/-- SHA-256 small sigma 0. -/
def shaSigma0 (x : Nat) : Nat := (rotr32 7 x) ^^^ (rotr32 18 x) ^^^ (x >>> 3)

/-- SHA-256 small sigma 1. -/
def shaSigma1 (x : Nat) : Nat := (rotr32 17 x) ^^^ (rotr32 19 x) ^^^ (x >>> 10)

/-- SHA-256 big sigma 0. -/
def shaBigSigma0 (x : Nat) : Nat := (rotr32 2 x) ^^^ (rotr32 13 x) ^^^ (rotr32 22 x)

/-- SHA-256 big sigma 1. -/
def shaBigSigma1 (x : Nat) : Nat := (rotr32 6 x) ^^^ (rotr32 11 x) ^^^ (rotr32 25 x)

/-- Extend the 16-word message schedule by n further words. -/
def extendW : List Nat → Nat → List Nat
  | w, 0 => w
  | w, n + 1 =>
    let t := w.length
    extendW (w ++ [w32 (shaSigma1 (w.getD (t - 2) 0) + w.getD (t - 7) 0 +
      shaSigma0 (w.getD (t - 15) 0) + w.getD (t - 16) 0)]) n

/-- One SHA-256 compression round; the state is the 8-word list [a..h]. -/
def compressStep (s : List Nat) (kw : Nat × Nat) : List Nat :=
  match s with
  | [a, b, c, d, e, f, g, h] =>
    let ch := (e &&& f) ^^^ ((4294967295 ^^^ e) &&& g)
    let maj := (a &&& b) ^^^ (a &&& c) ^^^ (b &&& c)
    let t1 := w32 (h + shaBigSigma1 e + ch + kw.1 + kw.2)
    let t2 := w32 (shaBigSigma0 a + maj)
    [w32 (t1 + t2), a, b, c, w32 (d + t1), e, f, g]
  | s => s

/-- Process one 64-byte block into the running hash state. -/
def processBlock (h : List Nat) (block : List Nat) : List Nat :=
  let w := extendW (bytesToWordsBE block) 48
  let s := (shaK.zip w).foldl compressStep h
  (h.zip s).map (fun p => w32 (p.1 + p.2))

/-- SHA-256 digest (32 bytes) of a byte list. -/
def sha256 (msg : List Nat) : List Nat :=
  let final := (chunks64 (sha256Pad msg)).foldl processBlock shaH0
  (final.map (natToBytesBE 4)).flatten

/-- HMAC-SHA256 digest; models Python hmac.new(key, msg, hashlib.sha256).digest(). -/
def hmacSha256 (key msg : List Nat) : List Nat :=
  let k0 := if key.length > 64 then sha256 key else key
  let k1 := k0 ++ List.replicate (64 - k0.length) 0
  let ipad := k1.map (fun b => b ^^^ 0x36)
  let opad := k1.map (fun b => b ^^^ 0x5c)
  sha256 (opad ++ sha256 (ipad ++ msg))

/-- Standard Base64 alphabet. -/
def base64Chars : List Char :=
  "ABCDEFGHIJKLMNOPQRSTUVWXYZabcdefghijklmnopqrstuvwxyz0123456789+/".data

/-- Character for one 6-bit group. -/
def b64Char (n : Nat) : Char := base64Chars.getD n 'A'

/-- Base64 encoding of a byte list, 3 bytes at a time with '=' padding. -/
def b64EncodeChunks : List Nat → List Char
  | b0 :: b1 :: b2 :: rest =>
    let n := (b0 <<< 16) + (b1 <<< 8) + b2
    b64Char (n >>> 18) :: b64Char ((n >>> 12) % 64) :: b64Char ((n >>> 6) % 64) ::
      b64Char (n % 64) :: b64EncodeChunks rest
  | [b0, b1] =>
    let n := (b0 <<< 16) + (b1 <<< 8)
    [b64Char (n >>> 18), b64Char ((n >>> 12) % 64), b64Char ((n >>> 6) % 64), '=']
  | [b0] =>
    let n := b0 <<< 16
    [b64Char (n >>> 18), b64Char ((n >>> 12) % 64), '=', '=']
  | [] => []

/-- Python base64.b64encode(...).decode(): bytes to their Base64 string. -/
def base64Encode (bs : List Nat) : String := ⟨b64EncodeChunks bs⟩

/-! ### JSON values.
Parsed JSON (what requests' response.json() and the normalizer's inputs look
like).  Python None is Json.null; Python numbers are exact rationals. -/

/-- A JSON value / dynamic Python value. -/
inductive Json where
  | null
  | bool (b : Bool)
  | num (q : ℚ)
  | str (s : String)
  | arr (elems : List Json)
  | obj (fields : List (String × Json))

/-- First-match association-list lookup; models Python dict.get(key) on dicts,
whose keys are unique. -/
def alookup {α : Type} : List (String × α) → String → Option α
  | [], _ => none
  | (k, v) :: rest, key => if k == key then some v else alookup rest key

/-- Keys of a JSON object (empty for non-objects). -/
def jkeys : Json → List String
  | .obj fs => fs.map Prod.fst
  | _ => []

/-! ### aiswei_api.py — AisweiSolarAPI -/

/-- The five credential strings given to AisweiSolarAPI.__init__. -/
structure Credentials where
  app_key : String
  app_secret : String
  api_key : String
  token : String
  sn : String

/-- self.base_url (aiswei_api.py line 38). -/
def base_url : String := "https://eu-api-genergal.aisweicloud.com"

/-- method = "GET" (line 50). -/
def reqMethod : String := "GET"

/-- content_type (line 51). -/
def reqContentType : String := "application/json; charset=UTF-8"

/-- accept (line 52). -/
def reqAccept : String := "application/json"

/-- Lines 54-57: append apikey, token and isnos to the endpoint, using '?' when
the endpoint has no query string yet and '&' otherwise. -/
def add_auth_params (c : Credentials) (endpoint : String) : String :=
  let e1 := endpoint ++ (if strContains endpoint '?' then "&" else "?") ++ "apikey=" ++ c.api_key
  let e2 := e1 ++ "&token=" ++ c.token
  e2 ++ "&isnos=" ++ c.sn

/-- Lines 59-63: s1 = endpoint.split('?'); if len(s1) > 1 rebuild the endpoint
from s1[0] and the sorted '&'-components of s1[1]. -/
def canonicalize (endpoint : String) : String :=
  let s1 := pySplit endpoint '?'
  if s1.length > 1 then
    (s1.headD "") ++ "?" ++ String.intercalate "&" (sortStrings (pySplit (s1.getD 1 "") '&'))
  else endpoint

/-- Line 75: the f-string building the string to sign, with the already
canonicalized endpoint interpolated at the end. -/
def string_to_sign (appKey endpoint : String) : String :=
  reqMethod ++ "\n" ++ reqAccept ++ "\n\n" ++ reqContentType ++ "\n\nX-Ca-Key:" ++ appKey
    ++ "\n" ++ endpoint

/-- Lines 76-82: X-Ca-Signature = base64(HMAC-SHA256(app_secret, string_to_sign)). -/
def computeSignature (c : Credentials) (sts : String) : String :=
  base64Encode (hmacSha256 (utf8Bytes c.app_secret) (utf8Bytes sts))

/-- What requests.get gave back: transport status, raw text, headers, and the
JSON parse of the body (none when response.json() raises). -/
structure HttpResponse where
  status_code : Nat
  text : String
  resp_headers : List (String × String)
  jsonBody : Option Json

/-- Outcome of the requests.get call: either a response or a raised
requests.exceptions.RequestException carrying its message. -/
inductive HttpAttempt where
  | response (r : HttpResponse)
  | failure (msg : String)

/-- Lines 89-105: turn an HTTP outcome into the returned dictionary.  Total by
construction — each of the three non-success paths returns an error dict. -/
def handle_response : HttpAttempt → Json
  | .failure e => .obj [("error", .str e)]
  | .response r =>
    if r.status_code == 200 then
      match r.jsonBody with
      | some body => body
      | none => .obj [("error", .str "Failed to parse JSON response"),
                      ("status", .num r.status_code)]
    else
      .obj [("error", .str r.text), ("status", .num r.status_code),
            ("headers", .obj (r.resp_headers.map (fun p => (p.1, Json.str p.2))))]

/-- Everything _make_request produces for one call: the URL sent, the headers
sent (in insertion order), the exact string that was signed, the signature, and
the returned dictionary. -/
structure SentRequest where
  url : String
  req_headers : List (String × String)
  signedString : String
  signature : String
  result : Json

/-- AisweiSolarAPI._make_request (lines 40-105), with the network modelled as
the HttpAttempt argument. -/
def make_request (c : Credentials) (endpoint : String) (attempt : HttpAttempt) : SentRequest :=
  let ep1 := add_auth_params c endpoint
  let ep2 := canonicalize ep1
  let sts := string_to_sign c.app_key ep2
  let sig := computeSignature c sts
  ⟨base_url ++ ep2,
   [("User-Agent", "app 1.0"), ("Content-Type", reqContentType), ("Accept", reqAccept),
    ("X-Ca-Signature-Headers", "X-Ca-Key"), ("X-Ca-Key", c.app_key), ("X-Ca-Signature", sig)],
   sts, sig, handle_response attempt⟩

/-! ### The operation catalog (aiswei_api.py lines 107-261).
Two of the fourteen methods interpolate datetime.now().strftime("%Y-%m-%d");
the current date is abstracted as the today argument. -/

/-- Which extra query parameters a catalog method adds to its fixed path. -/
inductive ParamSpec where
  | noParams
  | dateToday
  | periodByDaysDateToday
deriving DecidableEq

/-- One named method of AisweiSolarAPI. -/
structure Operation where
  opName : String
  isCreate : Bool
  path : String
  params : ParamSpec
deriving DecidableEq

/-- The endpoint string a catalog method passes to _make_request. -/
def endpoint_of (op : Operation) (today : String) : String :=
  match op.params with
  | .noParams => op.path
  | .dateToday => op.path ++ "?date=" ++ today
  | .periodByDaysDateToday => op.path ++ "?period=bydays&date=" ++ today

/-- The fourteen methods of AisweiSolarAPI in source order (API List 3.1-3.14). -/
def api_catalog : List Operation :=
  [⟨"getPlanListPro", false, "/pro/getPlanListPro", .noParams⟩,
   ⟨"getPlantOverviewPro", false, "/pro/getPlantOverviewPro", .noParams⟩,
   ⟨"getPlantOutputPro", false, "/pro/getPlantOutputPro", .periodByDaysDateToday⟩,
   ⟨"getPlantEventPro", false, "/pro/getPlantEventPro", .noParams⟩,
   ⟨"getDeviceListPro", false, "/pro/getDeviceListPro", .noParams⟩,
   ⟨"getLocationPro", false, "/pro/getLocationPro", .noParams⟩,
   ⟨"getLastTsDataPro", false, "/pro/getLastTsDataPro", .noParams⟩,
   ⟨"getInverterDataPagePro", false, "/pro/getInverterDataPagePro", .noParams⟩,
   ⟨"getInverterETodayPro", false, "/pro/getInverterETodayPro", .dateToday⟩,
   ⟨"getInverterHisErrorPagePro", false, "/pro/getInverterHisErrorPagePro", .noParams⟩,
   ⟨"getInverterCurrentErrorPro", false, "/pro/getInverterCurrentErrorPro", .noParams⟩,
   ⟨"getInverterOverviewPro", false, "/pro/getInverterOverviewPro", .noParams⟩,
   ⟨"getInverterRecoverStatusPro", false, "/pro/getInverterRecoverStatusPro", .noParams⟩,
   ⟨"createstationPro", true, "/pro/createstationPro", .noParams⟩]

/-! ### openhab_solplanet.py — numeric coercion helpers.
safe_float / safe_int wrap Python float(value) / int(value) in try/except.
The literal parsers below model the CPython float()/int() string grammar for
finite decimal literals (sign, digits, '.', exponent, surrounding whitespace);
the inf/nan words and digit-group underscores are outside the model — no value
in this code base or its API uses them. -/

/-- Strip leading and trailing whitespace, as float()/int() do. -/
def stripWs (cs : List Char) : List Char :=
  ((cs.dropWhile Char.isWhitespace).reverse.dropWhile Char.isWhitespace).reverse

/-- Take off one optional leading sign; returns (isNegative, rest). -/
def splitSign : List Char → Bool × List Char
  | '+' :: rest => (false, rest)
  | '-' :: rest => (true, rest)
  | cs => (false, cs)

/-- All characters are decimal digits. -/
def allDigits (cs : List Char) : Bool := cs.all Char.isDigit

/-- Numeric value of a digit string. -/
def digitsVal (cs : List Char) : Nat :=
  cs.foldl (fun a c => a * 10 + (c.toNat - 48)) 0

/-- Unsigned mantissa: digits with at most one '.', at least one digit. -/
def parseMantissa : List Char → Option ℚ
  | cs =>
    match List.splitOn '.' cs with
    | [intPart] =>
      if !intPart.isEmpty && allDigits intPart then some (digitsVal intPart : ℚ) else none
    | [intPart, fracPart] =>
      if (intPart.isEmpty && fracPart.isEmpty) then none
      else if allDigits intPart && allDigits fracPart then
        some ((digitsVal intPart : ℚ) + (digitsVal fracPart : ℚ) / ((10 : ℚ) ^ fracPart.length))
      else none
    | _ => none

/-- Signed exponent: optional sign then digits. -/
def parseExp : List Char → Option ℤ
  | cs =>
    let sr := splitSign cs
    if !sr.2.isEmpty && allDigits sr.2 then
      some (if sr.1 then -(digitsVal sr.2 : ℤ) else (digitsVal sr.2 : ℤ))
    else none

/-- Scale a rational by a power of ten given as an integer exponent. -/
def scaleByExp (q : ℚ) : ℤ → ℚ
  | .ofNat n => q * (10 : ℚ) ^ n
  | .negSucc n => q / (10 : ℚ) ^ (n + 1)

/-- Python float(s) on a string: the finite-decimal-literal grammar. -/
def parseFloatLit (s : String) : Option ℚ :=
  let cs := stripWs s.data
  match List.splitOn 'e' (cs.map (fun c => if c == 'E' then 'e' else c)) with
  | [m] =>
    let sr := splitSign m
    (parseMantissa sr.2).map (fun q => if sr.1 then -q else q)
  | [m, ex] =>
    let sr := splitSign m
    match parseMantissa sr.2, parseExp ex with
    | some q, some z => some (scaleByExp (if sr.1 then -q else q) z)
    | _, _ => none
  | _ => none

/-- Python int(s) on a string: sign then digits only. -/
def parseIntLit (s : String) : Option ℤ :=
  let cs := stripWs s.data
  let sr := splitSign cs
  if !sr.2.isEmpty && allDigits sr.2 then
    some (if sr.1 then -(digitsVal sr.2 : ℤ) else (digitsVal sr.2 : ℤ))
  else none

/-- Truncation toward zero, what Python int(float) does. -/
def ratTrunc (q : ℚ) : ℤ := Int.tdiv q.num q.den

/-- Python float(value) on a dynamic value: numbers pass through, booleans are
0/1, strings go through the literal grammar, everything else raises (none).
None itself is filtered out by safe_float before this is reached. -/
def pyFloat : Json → Option ℚ
  | .num q => some q
  | .bool b => some (if b then 1 else 0)
  | .str s => parseFloatLit s
  | _ => none

/-- Python int(value) on a dynamic value. -/
def pyInt : Json → Option ℤ
  | .num q => some (ratTrunc q)
  | .bool b => some (if b then 1 else 0)
  | .str s => parseIntLit s
  | _ => none

/-- openhab_solplanet.py lines 39-43: safe_float(value, default) — value None
(Json.null) or a failing float() conversion yields the default. -/
def safe_float (value : Json) (default : ℚ) : ℚ :=
  match value with
  | .null => default
  | v => match pyFloat v with
         | some q => q
         | none => default

/-- Lines 45-49: safe_int(value, default). -/
def safe_int (value : Json) (default : ℤ) : ℤ :=
  match value with
  | .null => default
  | v => match pyInt v with
         | some n => n
         | none => default

/-! ### openhab_solplanet.py — success check and normalizer -/

/-- Python == between a dict value (or None for a missing key) and an int
constant; booleans compare as 0/1, other types are never equal to an int. -/
def pyEqNum : Option Json → ℚ → Bool
  | some (.num q), n => q == n
  | some (.bool b), n => (if b then (1 : ℚ) else 0) == n
  | _, _ => false

/-- Python == between a dict value (or None) and a string constant. -/
def pyEqStr : Option Json → String → Bool
  | some (.str s), t => s == t
  | _, _ => false

/-- Python truthiness: None, False, 0, "" and empty containers are falsy. -/
def pyFalsy : Json → Bool
  | .null => true
  | .bool b => !b
  | .num q => q == 0
  | .str s => s.data.isEmpty
  | .arr xs => xs.isEmpty
  | .obj fs => fs.isEmpty

/-- Lines 22-24: status == 200 and info == 'success' and 'data' in response,
for a response that is a dict. -/
def success_check (fs : List (String × Json)) : Bool :=
  pyEqNum (alookup fs "status") 200 && pyEqStr (alookup fs "info") "success"
    && (alookup fs "data").isSome

/-- Lines 20-24: is_api_success(response).  response.get raises AttributeError
when the parsed response is not a dict. -/
def is_api_success : Json → Except String Bool
  | .obj fs => .ok (success_check fs)
  | _ => .error "AttributeError"

/-- device.get(key, 0) followed by safe_float, the pattern of every numeric
field read in extract_live_data. -/
def getF (device : List (String × Json)) (key : String) : ℚ :=
  safe_float ((alookup device key).getD (Json.num 0)) 0

/-- Lines 51-140: the returned dict, built from one device record.  Values are
in source order; scaled fields divide exactly as the source does. -/
def build_live_record (device : List (String × Json)) : List (String × Json) :=
  let pac := getF device "pac"
  let power_kw : ℚ := if pac == 0 then 0 else pac / 1000
  [("power", Json.num power_kw),
   ("device_name", (alookup device "sn").getD (Json.str "Unknown")),
   ("timestamp", (alookup device "tim").getD (Json.str "")),
   ("status", Json.str (if safe_int ((alookup device "currentState").getD Json.null) 0 == 1
                    then "Normal" else "Offline")),
   ("pac", Json.num pac),
   ("prc", Json.num (getF device "prc")),
   ("sac", Json.num (getF device "sac")),
   ("pf", Json.num (getF device "pf" / 100)),
   ("hto", Json.num (getF device "hto")),
   ("etd", Json.num (getF device "etd" / 10)),
   ("eto", Json.num (getF device "eto" / 10)),
   ("v1", Json.num (getF device "v1" / 10)),
   ("v2", Json.num (getF device "v2" / 10)),
   ("v3", Json.num (getF device "v3" / 10)),
   ("i1", Json.num (getF device "i1" / 100)),
   ("i2", Json.num (getF device "i2" / 100)),
   ("i3", Json.num (getF device "i3" / 100)),
   ("s1", Json.num (getF device "s1" / 10)),
   ("s2", Json.num (getF device "s2" / 10)),
   ("s3", Json.num (getF device "s3" / 10)),
   ("cf", Json.num (getF device "cf" / 10)),
   ("tu", Json.num (getF device "tu" / 10)),
   ("tv", Json.num (getF device "tv" / 10)),
   ("tw", Json.num (getF device "tw" / 10)),
   ("cb", Json.num (getF device "cb" / 10)),
   ("bv", Json.num (getF device "bv" / 10)),
   ("va1", Json.num (getF device "va1" / 10)),
   ("va2", Json.num (getF device "va2" / 10)),
   ("va3", Json.num (getF device "va3" / 10)),
   ("ia1", Json.num (getF device "ia1" / 10)),
   ("ia2", Json.num (getF device "ia2" / 10)),
   ("ia3", Json.num (getF device "ia3" / 10)),
   ("fac", Json.num (getF device "fac" / 100)),
   ("er", Json.num (getF device "er")),
   ("wn0", Json.num (getF device "wn0")),
   ("bat0", Json.num (getF device "bat0")),
   ("bat1", Json.num (getF device "bat1" / 10)),
   ("bat2", Json.num (getF device "bat2" / 10)),
   ("bat3", Json.num (getF device "bat3")),
   ("bat4", Json.num (getF device "bat4")),
   ("bat5", Json.num (getF device "bat5")),
   ("bat6", Json.num (getF device "bat6" / 100)),
   ("bat7", Json.num (getF device "bat7" / 10)),
   ("bat8", Json.num (getF device "bat8")),
   ("bat9", Json.num (getF device "bat9" / 10)),
   ("bat10", Json.num (getF device "bat10")),
   ("bat11", Json.num (getF device "bat11")),
   ("bat12", Json.num (getF device "bat12" / 10)),
   ("bat13", Json.num (getF device "bat13" / 10)),
   ("bat14", Json.num (getF device "bat14")),
   ("bat15", Json.num (getF device "bat15" / 10)),
   ("bat16", Json.num (getF device "bat16" / 10)),
   ("bat17", Json.num (getF device "bat17" / 10)),
   ("bat18", Json.num (getF device "bat18" / 10)),
   ("meterPow", Json.num (getF device "meterPow")),
   ("meterIed", Json.num (getF device "meterIed")),
   ("meterOed", Json.num (getF device "meterOed")),
   ("meterIet", Json.num (getF device "meterIet")),
   ("meterOet", Json.num (getF device "meterOet")),
   ("powerRatio", Json.num (getF device "powerRatio")),
   ("csq", Json.num (getF device "csq"))]

/-- Lines 26-140: extract_live_data(api_response).  Raises (Except.error) in
exactly the situations the Python raises: a non-dict response, or a truthy
data payload whose selected device is not a dict. -/
def extract_live_data (api_response : Json) : Except String (List (String × Json)) :=
  match api_response with
  | .obj fs =>
    if !(success_check fs) then .ok []
    else
      let devices := (alookup fs "data").getD (.arr [])
      if pyFalsy devices then .ok []
      else
        match (match devices with | .arr xs => xs.headD Json.null | d => d) with
        | .obj dfs => .ok (build_live_record dfs)
        | _ => .error "AttributeError"
  | _ => .error "AttributeError"

/-! ### openhab_solplanet.py — main: default template and merge -/

/-- Lines 154-209: the default output template; the timestamp value
datetime.now().isoformat() is abstracted as the now argument. -/
def default_output (now : String) : List (String × Json) :=
  [("timestamp", Json.str now), ("success", Json.bool false), ("power", Json.num 0),
   ("device_name", Json.str "Unknown"), ("status", Json.str "unknown"),
   ("pac", Json.num 0), ("prc", Json.num 0), ("sac", Json.num 0), ("pf", Json.num 0),
   ("hto", Json.num 0), ("etd", Json.num 0), ("eto", Json.num 0),
   ("v1", Json.num 0), ("v2", Json.num 0), ("v3", Json.num 0),
   ("i1", Json.num 0), ("i2", Json.num 0), ("i3", Json.num 0),
   ("s1", Json.num 0), ("s2", Json.num 0), ("s3", Json.num 0),
   ("cf", Json.num 0), ("tu", Json.num 0), ("tv", Json.num 0), ("tw", Json.num 0), ("cb", Json.num 0),
   ("bv", Json.num 0),
   ("va1", Json.num 0), ("va2", Json.num 0), ("va3", Json.num 0),
   ("ia1", Json.num 0), ("ia2", Json.num 0), ("ia3", Json.num 0),
   ("fac", Json.num 0),
   ("er", Json.num 0), ("wn0", Json.num 0),
   ("bat0", Json.num 0), ("bat1", Json.num 0), ("bat2", Json.num 0), ("bat3", Json.num 0), ("bat4", Json.num 0),
   ("bat5", Json.num 0), ("bat6", Json.num 0), ("bat7", Json.num 0), ("bat8", Json.num 0), ("bat9", Json.num 0),
   ("bat10", Json.num 0), ("bat11", Json.num 0), ("bat12", Json.num 0), ("bat13", Json.num 0), ("bat14", Json.num 0),
   ("bat15", Json.num 0), ("bat16", Json.num 0), ("bat17", Json.num 0), ("bat18", Json.num 0),
   ("meterPow", Json.num 0), ("meterIed", Json.num 0), ("meterOed", Json.num 0),
   ("meterIet", Json.num 0), ("meterOet", Json.num 0),
   ("powerRatio", Json.num 0), ("csq", Json.num 0)]

/-- Python dict.update for association lists whose keys are unique: existing
keys take the updating value in place, new keys are appended in update order. -/
def dict_update (base upd : List (String × Json)) : List (String × Json) :=
  base.map (fun kv => (kv.1, (alookup upd kv.1).getD kv.2))
    ++ upd.filter (fun kv => (alookup base kv.1).isNone)

/-- Python d[k] = v for association lists: replace in place, else append. -/
def dict_set (d : List (String × Json)) (k : String) (v : Json) : List (String × Json) :=
  if (alookup d k).isSome then
    d.map (fun kv => if kv.1 == k then (k, v) else kv)
  else d ++ [(k, v)]

/-- Lines 211-217 of main: merge the normalized record over the template and
mark success; on a non-success response the untouched template is emitted. -/
def build_output (now : String) (live_response : Json) : Except String (List (String × Json)) :=
  match is_api_success live_response with
  | .error e => .error e
  | .ok true =>
    match extract_live_data live_response with
    | .error e => .error e
    | .ok live_data => .ok (dict_set (dict_update (default_output now) live_data)
                              "success" (Json.bool true))
  | .ok false => .ok (default_output now)

/-! ### Definitions used only by the statements of the claims -/

/-- The canonicalization step in the words of the specification: split off the
query string (everything after the first '?'), sort its individual key=value
components lexicographically as whole strings, rejoin with '&'.  Used to
compare the source's split-on-every-'?' implementation against the spec. -/
def canonicalizeSpec (endpoint : String) : String :=
  match pySplit endpoint '?' with
  | [] => endpoint
  | [_] => endpoint
  | path :: rest =>
    path ++ "?" ++ String.intercalate "&" (sortStrings (pySplit (String.intercalate "?" rest) '&'))

/-- A JSON value that is a record (dict). -/
def isRecordJson : Json → Bool
  | .obj _ => true
  | _ => false

/-- The spec's data model of an API response (section 3): a record carrying
status/info fields whose data payload, when present, is a single record or a
sequence of records. -/
def wf_api_response : Json → Bool
  | .obj fs =>
    (match alookup fs "data" with
     | some (.arr xs) => xs.all isRecordJson
     | some (.obj _) => true
     | some _ => false
     | none => true)
  | _ => false

/-- The device record of the spec's normalizer example. -/
def c4_device : List (String × Json) :=
  [("pac", Json.str "1500"), ("sn", Json.str "X1"), ("currentState", Json.str "1")]

/-- The full response of the spec's normalizer example. -/
def c4_response : Json :=
  .obj [("status", Json.num 200), ("info", Json.str "success"),
        ("data", Json.arr [Json.obj c4_device])]

/-! ### Order lemmas for the query-component sort -/

/-- charListLe is total. -/
theorem charListLe_total (a b : List Char) : charListLe a b = true ∨ charListLe b a = true := by
  induction a generalizing b with
  | nil => left; rfl
  | cons x xs ih =>
    cases b with
    | nil => right; rfl
    | cons y ys =>
      by_cases hxy : x < y
      · left; simp [charListLe, hxy]
      · by_cases hyx : y < x
        · right; simp [charListLe, hyx]
        · rcases ih ys with h | h
          · left; simp [charListLe, hxy, hyx, h]
          · right; simp [charListLe, hxy, hyx, h]

/-- strLe is total, as Python's string comparison is. -/
theorem strLe_total (a b : String) : strLe a b = true ∨ strLe b a = true :=
  charListLe_total a.data b.data

/-- Inserting into a list yields a permutation of consing. -/
theorem perm_insertSorted (x : String) (l : List String) : List.Perm (insertSorted x l) (x :: l) := by
  induction l with
  | nil => exact List.Perm.refl _
  | cons y ys ih =>
    by_cases h : strLe x y
    · simp [insertSorted, h]
    · simp only [insertSorted, h, Bool.false_eq_true, if_false]
      exact ((ih.cons y).trans (List.Perm.swap x y ys))

/-- sortStrings permutes its input: no component is lost or duplicated. -/
theorem perm_sortStrings (l : List String) : List.Perm (sortStrings l) l := by
  induction l with
  | nil => exact List.Perm.refl _
  | cons x xs ih => exact (perm_insertSorted x (sortStrings xs)).trans (ih.cons x)

/-- Inserting keeps every adjacent pair ordered. -/
theorem chain_insertSorted (x : String) :
    ∀ {l : List String}, List.Chain' (fun s t => strLe s t = true) l →
      List.Chain' (fun s t => strLe s t = true) (insertSorted x l) := by
  intro l
  induction l with
  | nil => intro _; simp [insertSorted]
  | cons y ys ih =>
    intro hc
    rcases List.chain'_cons'.mp hc with ⟨hy, hys⟩
    by_cases h : strLe x y
    · simp only [insertSorted, h, if_true]
      exact List.chain'_cons'.mpr ⟨fun b hb => by simp_all, hc⟩
    · have hyx : strLe y x = true := by
        rcases strLe_total x y with h' | h'
        · exact absurd h' h
        · exact h'
      simp only [insertSorted, h, Bool.false_eq_true, if_false]
      refine List.chain'_cons'.mpr ⟨?_, ih hys⟩
      intro b hb
      cases ys with
      | nil => simp [insertSorted] at hb; subst hb; exact hyx
      | cons z zs =>
        by_cases hz : strLe x z
        · simp [insertSorted, hz] at hb; subst hb; exact hyx
        · simp [insertSorted, hz] at hb
          subst hb
          exact hy z rfl

/-- sortStrings output is ordered: every adjacent pair respects the
code-point lexicographic order. -/
theorem chain_sortStrings (l : List String) :
    List.Chain' (fun s t => strLe s t = true) (sortStrings l) := by
  induction l with
  | nil => simp [sortStrings]
  | cons x xs ih => exact chain_insertSorted x ih

/-! ### Claim C1 -/

/-- C1: for every endpoint path and credential tuple, _make_request appends the
three authentication parameters apikey, token, isnos in that fixed order
(using '?' when the endpoint has no query string yet, else '&'), then sorts
the key=value components lexicographically as whole strings (the sorted list
is a permutation of the components and every adjacent pair is in code-point
order) and rejoins them with '&'; the canonical endpoint inside the sent URL
is character-for-character the endpoint the signature is computed over.  The
hypothesis fixes the ordinary case in which the endpoint-plus-credentials
string splits at exactly one '?' (the other case is claim C10), matching the
spec's reading of one path and one query string. -/
theorem c1_sent_equals_signed_canonical (c : Credentials) (ep : String) (att : HttpAttempt)
    (p q : String) (h : pySplit (add_auth_params c ep) '?' = [p, q]) :
    (make_request c ep att).url = base_url ++ canonicalize (add_auth_params c ep)
    ∧ (make_request c ep att).signedString
        = string_to_sign c.app_key (canonicalize (add_auth_params c ep))
    ∧ add_auth_params c ep
        = ep ++ (if strContains ep '?' then "&" else "?") ++ "apikey=" ++ c.api_key
          ++ "&token=" ++ c.token ++ "&isnos=" ++ c.sn
    ∧ canonicalize (add_auth_params c ep)
        = p ++ "?" ++ String.intercalate "&" (sortStrings (pySplit q '&'))
    ∧ List.Perm (sortStrings (pySplit q '&')) (pySplit q '&')
    ∧ List.Chain' (fun s t => strLe s t = true) (sortStrings (pySplit q '&'))
    ∧ canonicalize (add_auth_params c ep) = canonicalizeSpec (add_auth_params c ep) := by
  refine ⟨rfl, rfl, rfl, ?_, perm_sortStrings _, chain_sortStrings _, ?_⟩
  · simp [canonicalize, h]
  · simp [canonicalize, canonicalizeSpec, h, String.intercalate, String.intercalate.go]

/-- Witness for C1 at concrete credentials and the endpoint /pro/test. -/
theorem c1_witness :
    (make_request ⟨"K", "S", "A", "T", "N"⟩ "/pro/test" (.failure "down")).url
      = base_url ++ canonicalize (add_auth_params ⟨"K", "S", "A", "T", "N"⟩ "/pro/test")
    ∧ canonicalize (add_auth_params ⟨"K", "S", "A", "T", "N"⟩ "/pro/test")
      = "/pro/test" ++ "?"
        ++ String.intercalate "&" (sortStrings (pySplit "apikey=A&token=T&isnos=N" '&')) :=
  ⟨(c1_sent_equals_signed_canonical ⟨"K", "S", "A", "T", "N"⟩ "/pro/test" (.failure "down")
      "/pro/test" "apikey=A&token=T&isnos=N" (by decide)).1,
   (c1_sent_equals_signed_canonical ⟨"K", "S", "A", "T", "N"⟩ "/pro/test" (.failure "down")
      "/pro/test" "apikey=A&token=T&isnos=N" (by decide)).2.2.2.1⟩

/-! ### Claim C10 -/

/-- C10: when the endpoint string (after the credential append) contains more
than one '?', canonicalization silently drops everything from the second '?'
on: the result is rebuilt only from the text before the first '?' and the
sorted '&'-components of the text between the first and second '?'. -/
theorem c10_second_question_mark_truncates (s p q r : String) (rest : List String)
    (h : pySplit s '?' = p :: q :: r :: rest) :
    canonicalize s = p ++ "?" ++ String.intercalate "&" (sortStrings (pySplit q '&')) := by
  simp [canonicalize, h]

/-- Witness for C10: a concrete endpoint with two '?' loses its tail
("b=2&c=3" vanishes, only "a=1" survives and is sorted). -/
theorem c10_witness :
    canonicalize "/pro/test?a=1?b=2&c=3"
      = "/pro/test" ++ "?" ++ String.intercalate "&" (sortStrings (pySplit "a=1" '&')) :=
  c10_second_question_mark_truncates "/pro/test?a=1?b=2&c=3" "/pro/test" "a=1" "b=2&c=3" []
    (by decide)

/-! ### Claim C2 -/

/-- C2: for every credential tuple and canonicalized endpoint, the signing
string is exactly the newline-joined sequence GET, the Accept value, an empty
line, the Content-Type value, an empty line, the literal line
X-Ca-Key:appkey, and the canonicalized endpoint; the X-Ca-Signature value is
the Base64 encoding of the HMAC-SHA256 digest of that string keyed by the app
secret; and identical inputs give an identical signature (the signature does
not depend on the network outcome of the run). -/
theorem c2_signing_string_and_signature (c : Credentials) (ep : String)
    (att att' : HttpAttempt) :
    (make_request c ep att).signedString
      = String.intercalate "\n"
          ["GET", reqAccept, "", reqContentType, "",
           "X-Ca-Key:" ++ c.app_key, canonicalize (add_auth_params c ep)]
    ∧ (make_request c ep att).signature
      = base64Encode (hmacSha256 (utf8Bytes c.app_secret)
          (utf8Bytes ((make_request c ep att).signedString)))
    ∧ (make_request c ep att).signature = (make_request c ep att').signature := by
  refine ⟨?_, rfl, rfl⟩
  apply String.ext
  simp [make_request, string_to_sign, String.intercalate, String.intercalate.go,
    String.data_append, reqMethod, reqAccept, reqContentType]

set_option maxRecDepth 100000 in
/-- The modelled hash stack agrees with published test vectors: the NIST
FIPS 180-2 SHA-256 examples for "abc" and the empty message, RFC 4231
HMAC-SHA256 test case 2, and a Base64 example.  This grounds the definitions
c2 relies on. -/
theorem crypto_test_vectors :
    sha256 (utf8Bytes "abc")
      = [0xba, 0x78, 0x16, 0xbf, 0x8f, 0x01, 0xcf, 0xea, 0x41, 0x41, 0x40, 0xde,
         0x5d, 0xae, 0x22, 0x23, 0xb0, 0x03, 0x61, 0xa3, 0x96, 0x17, 0x7a, 0x9c,
         0xb4, 0x10, 0xff, 0x61, 0xf2, 0x00, 0x15, 0xad]
    ∧ sha256 []
      = [0xe3, 0xb0, 0xc4, 0x42, 0x98, 0xfc, 0x1c, 0x14, 0x9a, 0xfb, 0xf4, 0xc8,
         0x99, 0x6f, 0xb9, 0x24, 0x27, 0xae, 0x41, 0xe4, 0x64, 0x9b, 0x93, 0x4c,
         0xa4, 0x95, 0x99, 0x1b, 0x78, 0x52, 0xb8, 0x55]
    ∧ hmacSha256 (utf8Bytes "Jefe") (utf8Bytes "what do ya want for nothing?")
      = [0x5b, 0xdc, 0xc1, 0x46, 0xbf, 0x60, 0x75, 0x4e, 0x6a, 0x04, 0x24, 0x26,
         0x08, 0x95, 0x75, 0xc7, 0x5a, 0x00, 0x3f, 0x08, 0x9d, 0x27, 0x39, 0x83,
         0x9d, 0xec, 0x58, 0xb9, 0x64, 0xec, 0x38, 0x43]
    ∧ base64Encode (utf8Bytes "foobar") = "Zm9vYmFy" :=
  ⟨by decide, by decide, by decide, by decide⟩

/-! ### Claim C3 -/

/-- C3: for every HTTP outcome the request call returns a dictionary and never
raises past its boundary (handle_response is a total function into Json): a
200 response with an unparseable body yields an error result carrying the
HTTP status and the parse-failure indicator; a non-200 response yields an
error result carrying the raw body text, the status and the response
headers; a transport-level failure yields an error result carrying the
failure description; and a parseable 200 body is returned as is. -/
theorem c3_request_never_raises (c : Credentials) (ep : String) :
    (∀ e, (make_request c ep (.failure e)).result = Json.obj [("error", Json.str e)])
    ∧ (∀ r : HttpResponse, r.status_code = 200 → r.jsonBody = none →
        (make_request c ep (.response r)).result
          = Json.obj [("error", Json.str "Failed to parse JSON response"),
                      ("status", Json.num 200)])
    ∧ (∀ r : HttpResponse, r.status_code ≠ 200 →
        (make_request c ep (.response r)).result
          = Json.obj [("error", Json.str r.text), ("status", Json.num r.status_code),
                      ("headers", Json.obj (r.resp_headers.map (fun p => (p.1, Json.str p.2))))])
    ∧ (∀ (r : HttpResponse) (body : Json), r.status_code = 200 → r.jsonBody = some body →
        (make_request c ep (.response r)).result = body) := by
  refine ⟨fun e => rfl, ?_, ?_, ?_⟩
  · intro r h1 h2
    simp [make_request, handle_response, h1, h2]
  · intro r h1
    simp [make_request, handle_response, h1]
  · intro r body h1 h2
    simp [make_request, handle_response, h1, h2]

/-- Witness for C3: the parse-failure and non-200 branches at concrete
responses. -/
theorem c3_witness :
    (make_request ⟨"K", "S", "A", "T", "N"⟩ "/pro/test"
        (.response ⟨200, "not json", [], none⟩)).result
      = Json.obj [("error", Json.str "Failed to parse JSON response"), ("status", Json.num 200)]
    ∧ (make_request ⟨"K", "S", "A", "T", "N"⟩ "/pro/test"
        (.response ⟨500, "HTML", [("Server", "nginx")], none⟩)).result
      = Json.obj [("error", Json.str "HTML"), ("status", Json.num ((500 : Nat) : ℚ)),
                  ("headers", Json.obj [("Server", Json.str "nginx")])] :=
  ⟨(c3_request_never_raises ⟨"K", "S", "A", "T", "N"⟩ "/pro/test").2.1
      ⟨200, "not json", [], none⟩ rfl rfl,
   (c3_request_never_raises ⟨"K", "S", "A", "T", "N"⟩ "/pro/test").2.2.1
      ⟨500, "HTML", [("Server", "nginx")], none⟩ (by decide)⟩

/-! ### Claim C9 -/

/-- C9: the three error-result shapes differ in their key sets: a transport
failure yields exactly the key error; a parse failure yields exactly the keys
error and status and its status value is always 200 (the whole dictionary is
pinned); a non-200 response yields exactly the keys error, status and
headers; and the three key lists are pairwise distinct. -/
theorem c9_error_shapes_distinguishable :
    (∀ e, jkeys (handle_response (.failure e)) = ["error"])
    ∧ (∀ r : HttpResponse, r.status_code = 200 → r.jsonBody = none →
        jkeys (handle_response (.response r)) = ["error", "status"]
        ∧ handle_response (.response r)
            = Json.obj [("error", Json.str "Failed to parse JSON response"),
                        ("status", Json.num 200)])
    ∧ (∀ r : HttpResponse, r.status_code ≠ 200 →
        jkeys (handle_response (.response r)) = ["error", "status", "headers"])
    ∧ (["error"] : List String) ≠ ["error", "status"]
    ∧ (["error"] : List String) ≠ ["error", "status", "headers"]
    ∧ (["error", "status"] : List String) ≠ ["error", "status", "headers"] := by
  refine ⟨fun e => rfl, ?_, ?_, by decide, by decide, by decide⟩
  · intro r h1 h2
    constructor
    · simp [handle_response, h1, h2, jkeys]
    · simp [handle_response, h1, h2]
  · intro r h1
    simp [handle_response, h1, jkeys]

/-- Witness for C9: key sets of the three error shapes at concrete inputs. -/
theorem c9_witness :
    jkeys (handle_response (.failure "Connection refused")) = ["error"]
    ∧ jkeys (handle_response (.response ⟨200, "<html>", [], none⟩)) = ["error", "status"]
    ∧ jkeys (handle_response (.response ⟨404, "not found", [("a", "b")], none⟩))
        = ["error", "status", "headers"] :=
  ⟨(c9_error_shapes_distinguishable).1 "Connection refused",
   ((c9_error_shapes_distinguishable).2.1 ⟨200, "<html>", [], none⟩ rfl rfl).1,
   (c9_error_shapes_distinguishable).2.2.1 ⟨404, "not found", [("a", "b")], none⟩ (by decide)⟩

/-! ### Claim C5 -/

/-- C5: every response that fails the success check (status field not 200, or
info field not "success", or no data field) normalizes to the empty mapping,
and so does every response whose data field is an empty sequence. -/
theorem c5_failure_or_empty_data_normalizes_empty (fs : List (String × Json)) :
    (success_check fs = false → extract_live_data (.obj fs) = .ok [])
    ∧ (alookup fs "data" = some (Json.arr []) → extract_live_data (.obj fs) = .ok []) := by
  constructor
  · intro h
    simp [extract_live_data, h]
  · intro h
    by_cases hs : success_check fs
    · simp [extract_live_data, hs, h, pyFalsy]
    · simp [extract_live_data, hs]

/-- Witness for C5 at the three concrete responses of the spec:
status 500, status 200 with info "fail", and an empty data list. -/
theorem c5_witness :
    extract_live_data (.obj [("status", Json.num 500)]) = .ok []
    ∧ extract_live_data (.obj [("status", Json.num 200), ("info", Json.str "fail")]) = .ok []
    ∧ extract_live_data (.obj [("status", Json.num 200), ("info", Json.str "success"),
        ("data", Json.arr [])]) = .ok [] :=
  ⟨(c5_failure_or_empty_data_normalizes_empty [("status", Json.num 500)]).1 (by decide),
   (c5_failure_or_empty_data_normalizes_empty
      [("status", Json.num 200), ("info", Json.str "fail")]).1 (by decide),
   (c5_failure_or_empty_data_normalizes_empty
      [("status", Json.num 200), ("info", Json.str "success"), ("data", Json.arr [])]).2 rfl⟩

/-! ### Claim C6 -/

/-- C6 counterexample: a response that passes the success check but whose data
payload is the string "x" makes extract_live_data raise (AttributeError on
device.get), so normalize is not total over every API response. -/
theorem c6_counterexample :
    extract_live_data (Json.obj [("status", Json.num 200), ("info", Json.str "success"),
        ("data", Json.str "x")]) = .error "AttributeError" := by
  rfl

/-- C6 amended: over responses of the spec's own data model — a record whose
data payload, when present, is a record or a sequence of records — normalize
never fails; and every raw field value that is non-numeric, missing or null
coerces to the caller-supplied default instead of raising (for example
pac="N/A" coerces to 0). -/
theorem c6_amended_normalize_total (r : Json) (h : wf_api_response r = true) :
    (∃ rec, extract_live_data r = .ok rec)
    ∧ (∀ (v : Json) (d : ℚ), pyFloat v = none → safe_float v d = d)
    ∧ (∀ d : ℚ, safe_float (Json.str "N/A") d = d)
    ∧ (∀ d : ℚ, safe_float Json.null d = d) := by
  refine ⟨?_, ?_, fun d => rfl, fun d => rfl⟩
  · cases r with
    | obj fs =>
      by_cases hs : success_check fs
      · rcases hd : alookup fs "data" with _ | d
        · exact absurd hs (by simp [success_check, hd])
        · cases d with
          | arr xs =>
            cases xs with
            | nil => exact ⟨[], by simp [extract_live_data, hs, hd, pyFalsy]⟩
            | cons y ys =>
              have hy : isRecordJson y = true := by
                simp only [wf_api_response, hd, List.all_cons, Bool.and_eq_true] at h
                exact h.1
              cases y with
              | obj dfs =>
                exact ⟨build_live_record dfs, by simp [extract_live_data, hs, hd, pyFalsy]⟩
              | null => simp [isRecordJson] at hy
              | bool b => simp [isRecordJson] at hy
              | num q => simp [isRecordJson] at hy
              | str s => simp [isRecordJson] at hy
              | arr zs => simp [isRecordJson] at hy
          | obj dfs =>
            cases dfs with
            | nil => exact ⟨[], by simp [extract_live_data, hs, hd, pyFalsy]⟩
            | cons kv rest =>
              exact ⟨build_live_record (kv :: rest),
                by simp [extract_live_data, hs, hd, pyFalsy]⟩
          | null => simp [wf_api_response, hd] at h
          | bool b => simp [wf_api_response, hd] at h
          | num q => simp [wf_api_response, hd] at h
          | str s => simp [wf_api_response, hd] at h
      · exact ⟨[], by simp [extract_live_data, hs]⟩
    | null => simp [wf_api_response] at h
    | bool b => simp [wf_api_response] at h
    | num q => simp [wf_api_response] at h
    | str s => simp [wf_api_response] at h
    | arr xs => simp [wf_api_response] at h
  · intro v d hv
    cases v with
    | null => rfl
    | bool b => simp [pyFloat] at hv
    | num q => simp [pyFloat] at hv
    | str s => simp [safe_float, pyFloat] at hv ⊢; simp [hv]
    | arr xs => rfl
    | obj fs => rfl

/-- Witness for C6 at the spec's example response, which satisfies the data
model, and the spec's malformed numeric field example. -/
theorem c6_witness :
    (∃ rec, extract_live_data c4_response = .ok rec)
    ∧ (∀ d : ℚ, safe_float (Json.str "N/A") d = d) :=
  ⟨(c6_amended_normalize_total c4_response (by rfl)).1,
   (c6_amended_normalize_total c4_response (by rfl)).2.2.1⟩

/-! ### Claim C4 -/

/-- C4 counterexample: on the spec's example response the claim puts every
field other than power, device_name and status at its zero default, but the
pac entry of the normalized record is 1500 (pac is specified in the input),
not 0. -/
theorem c4_counterexample :
    extract_live_data c4_response = .ok (build_live_record c4_device)
    ∧ alookup (build_live_record c4_device) "pac" = some (Json.num 1500)
    ∧ Json.num 1500 ≠ Json.num 0 := by
  refine ⟨rfl, rfl, ?_⟩
  intro h
  injection h with h'
  exact absurd h' (by norm_num)

/-- C4 amended: on the response status 200 / info "success" / data
[pac "1500", sn "X1", currentState "1"], normalize yields power=1.5,
device_name "X1", status "Normal", the specified field pac=1500.0, the empty
timestamp, and every field not specified in the input at its zero default;
in general the power entry is the coerced pac divided by 1000, the status
entry is "Normal" exactly when the raw currentState field coerces to integer
1 and "Offline" otherwise, and the device_name entry is the raw sn field
defaulting to "Unknown". -/
theorem c4_amended_normalize_example :
    extract_live_data c4_response
      = .ok [("power", Json.num ((3 : ℚ) / 2)), ("device_name", Json.str "X1"),
             ("timestamp", Json.str ""), ("status", Json.str "Normal"),
             ("pac", Json.num 1500), ("prc", Json.num 0), ("sac", Json.num 0),
             ("pf", Json.num 0), ("hto", Json.num 0), ("etd", Json.num 0),
             ("eto", Json.num 0), ("v1", Json.num 0), ("v2", Json.num 0),
             ("v3", Json.num 0), ("i1", Json.num 0), ("i2", Json.num 0),
             ("i3", Json.num 0), ("s1", Json.num 0), ("s2", Json.num 0),
             ("s3", Json.num 0), ("cf", Json.num 0), ("tu", Json.num 0),
             ("tv", Json.num 0), ("tw", Json.num 0), ("cb", Json.num 0),
             ("bv", Json.num 0), ("va1", Json.num 0), ("va2", Json.num 0),
             ("va3", Json.num 0), ("ia1", Json.num 0), ("ia2", Json.num 0),
             ("ia3", Json.num 0), ("fac", Json.num 0), ("er", Json.num 0),
             ("wn0", Json.num 0), ("bat0", Json.num 0), ("bat1", Json.num 0),
             ("bat2", Json.num 0), ("bat3", Json.num 0), ("bat4", Json.num 0),
             ("bat5", Json.num 0), ("bat6", Json.num 0), ("bat7", Json.num 0),
             ("bat8", Json.num 0), ("bat9", Json.num 0), ("bat10", Json.num 0),
             ("bat11", Json.num 0), ("bat12", Json.num 0), ("bat13", Json.num 0),
             ("bat14", Json.num 0), ("bat15", Json.num 0), ("bat16", Json.num 0),
             ("bat17", Json.num 0), ("bat18", Json.num 0), ("meterPow", Json.num 0),
             ("meterIed", Json.num 0), ("meterOed", Json.num 0), ("meterIet", Json.num 0),
             ("meterOet", Json.num 0), ("powerRatio", Json.num 0), ("csq", Json.num 0)]
    ∧ (∀ device, alookup (build_live_record device) "power"
        = some (Json.num (getF device "pac" / 1000)))
    ∧ (∀ device, alookup (build_live_record device) "status"
        = some (Json.str (if safe_int ((alookup device "currentState").getD Json.null) 0 == 1
                          then "Normal" else "Offline")))
    ∧ (∀ device, alookup (build_live_record device) "device_name"
        = some ((alookup device "sn").getD (Json.str "Unknown"))) := by
  refine ⟨by with_unfolding_all rfl, ?_, fun device => rfl, fun device => rfl⟩
  intro device
  show some (Json.num (if getF device "pac" == 0 then 0 else getF device "pac" / 1000))
    = some (Json.num (getF device "pac" / 1000))
  by_cases h : getF device "pac" = 0
  · simp [h]
  · simp [h]

/-! ### Claim C7 -/

/-- C7 counterexample: the catalog does not have 14 read operations, and the
operations adding extra query parameters do not number 3 — the source defines
13 read methods plus createstationPro, and only getPlantOutputPro and
getInverterETodayPro add parameters. -/
theorem c7_counterexample :
    ¬((api_catalog.filter (fun op => !op.isCreate)).length = 14
      ∧ (api_catalog.filter (fun op => op.isCreate)).length = 1
      ∧ (api_catalog.filter (fun op => decide (op.params ≠ ParamSpec.noParams))).length = 3) := by
  decide

/-- C7 amended: the static catalog consists of 13 read operations plus 1
create operation (14 in total), each addressable by a distinct name and each
mapping to exactly one endpoint path; exactly two operations add extra query
parameters — getPlantOutputPro a fixed period=bydays together with the
dynamically computed date, getInverterETodayPro the date alone — and every
other operation passes its fixed path unchanged. -/
theorem c7_amended_catalog :
    api_catalog.length = 14
    ∧ (api_catalog.filter (fun op => !op.isCreate)).length = 13
    ∧ (api_catalog.filter (fun op => op.isCreate)).map Operation.opName = ["createstationPro"]
    ∧ (api_catalog.map Operation.opName).Nodup
    ∧ (api_catalog.filter (fun op => decide (op.params ≠ ParamSpec.noParams))).map
        Operation.opName = ["getPlantOutputPro", "getInverterETodayPro"]
    ∧ (∀ today, api_catalog.map (fun op => endpoint_of op today)
        = ["/pro/getPlanListPro", "/pro/getPlantOverviewPro",
           "/pro/getPlantOutputPro?period=bydays&date=" ++ today, "/pro/getPlantEventPro",
           "/pro/getDeviceListPro", "/pro/getLocationPro", "/pro/getLastTsDataPro",
           "/pro/getInverterDataPagePro", "/pro/getInverterETodayPro?date=" ++ today,
           "/pro/getInverterHisErrorPagePro", "/pro/getInverterCurrentErrorPro",
           "/pro/getInverterOverviewPro", "/pro/getInverterRecoverStatusPro",
           "/pro/createstationPro"]) := by
  refine ⟨by decide, by decide, by decide, by decide, by decide, ?_⟩
  intro today
  rfl

/-! ### Association-list lemmas for the merge step -/

/-- Lookup over an append tries the left list first. -/
theorem alookup_append {α : Type} (a b : List (String × α)) (k : String) :
    alookup (a ++ b) k
      = (match alookup a k with | some v => some v | none => alookup b k) := by
  induction a with
  | nil => rfl
  | cons kv rest ih =>
    by_cases h : kv.1 == k
    · simp [alookup, h]
    · simp [alookup, h, ih]

/-- Lookup through the value-replacing map of dict_update. -/
theorem alookup_map_upd {α : Type} (base upd : List (String × α)) (k : String) :
    alookup (base.map (fun kv => (kv.1, (alookup upd kv.1).getD kv.2))) k
      = (alookup base k).map (fun v => (alookup upd k).getD v) := by
  induction base with
  | nil => rfl
  | cons kv rest ih =>
    by_cases h : kv.1 == k
    · have hk : kv.1 = k := by simpa using h
      simp [alookup, h, hk]
    · simp [alookup, h, ih]

/-- A key absent from a list is absent from any filtering of it. -/
theorem alookup_filter_none {α : Type} (l : List (String × α)) (p : String × α → Bool)
    (k : String) (h : alookup l k = none) : alookup (l.filter p) k = none := by
  induction l with
  | nil => rfl
  | cons kv rest ih =>
    by_cases hk : kv.1 == k
    · simp [alookup, hk] at h
    · simp only [alookup, hk, Bool.false_eq_true, if_false] at h
      by_cases hp : p kv
      · simp [List.filter_cons_of_pos hp, alookup, hk, ih h]
      · simp [List.filter_cons_of_neg hp, ih h]

/-- A lookup succeeds exactly when the key occurs among the keys. -/
theorem alookup_isSome_eq {α : Type} (l : List (String × α)) (k : String) :
    (alookup l k).isSome = (l.map Prod.fst).contains k := by
  induction l with
  | nil => rfl
  | cons kv rest ih =>
    by_cases hk : kv.1 = k
    · subst hk
      simp [alookup, List.contains_cons]
    · have h1 : (kv.1 == k) = false := beq_eq_false_iff_ne.mpr hk
      have h2 : (k == kv.1) = false := beq_eq_false_iff_ne.mpr (Ne.symm hk)
      simp [alookup, List.contains_cons, h1, h2, ih]

/-- dict_update keeps exactly the base key list when every updating key is
already present in the base. -/
theorem keys_dict_update (base upd : List (String × Json))
    (h : ∀ kv ∈ upd, (alookup base kv.1).isSome = true) :
    (dict_update base upd).map Prod.fst = base.map Prod.fst := by
  unfold dict_update
  have h2 : upd.filter (fun kv => (alookup base kv.1).isNone) = [] := by
    rw [List.filter_eq_nil_iff]
    intro kv hkv hp
    have h3 := h kv hkv
    rw [Option.isNone_iff_eq_none] at hp
    rw [hp] at h3
    exact absurd h3 (by simp)
  rw [h2, List.append_nil, List.map_map]
  exact List.map_congr_left (fun kv _ => rfl)

/-- Assigning to a key that is already present keeps the key list. -/
theorem keys_dict_set (d : List (String × Json)) (k : String) (v : Json)
    (h : (alookup d k).isSome = true) :
    (dict_set d k v).map Prod.fst = d.map Prod.fst := by
  unfold dict_set
  rw [if_pos h, List.map_map]
  refine List.map_congr_left ?_
  intro kv _
  by_cases hk : kv.1 == k
  · have : kv.1 = k := by simpa using hk
    simp [Function.comp, hk, this]
  · simp [Function.comp, hk]

/-- The key list of the normalized record does not depend on the device. -/
theorem build_live_record_keys (device : List (String × Json)) :
    (build_live_record device).map Prod.fst
      = (build_live_record ([] : List (String × Json))).map Prod.fst := rfl

/-- Every successful extraction is either the empty mapping or the full
normalized record of some device. -/
theorem extract_live_data_shape (r : Json) (rec : List (String × Json))
    (h : extract_live_data r = .ok rec) :
    rec = [] ∨ ∃ dfs, rec = build_live_record dfs := by
  cases r with
  | obj fs =>
    by_cases hs : success_check fs
    · simp only [extract_live_data, hs, Bool.not_true, Bool.false_eq_true, if_false] at h
      rcases hd : alookup fs "data" with _ | d
      · rw [hd] at h
        simp only [Option.getD_none, pyFalsy, List.isEmpty_nil, if_true] at h
        exact Or.inl (by injection h with h; exact h.symm)
      · rw [hd] at h
        simp only [Option.getD_some] at h
        by_cases hf : pyFalsy d
        · rw [if_pos hf] at h
          exact Or.inl (by injection h with h; exact h.symm)
        · rw [if_neg hf] at h
          cases d with
          | arr xs =>
            cases xs with
            | nil => exact absurd rfl hf
            | cons y ys =>
              cases y with
              | obj dfs =>
                refine Or.inr ⟨dfs, ?_⟩
                simp only [List.headD_cons] at h
                injection h with h
                exact h.symm
              | null => simp at h
              | bool b => simp at h
              | num q => simp at h
              | str s => simp at h
              | arr zs => simp at h
          | obj dfs =>
            refine Or.inr ⟨dfs, ?_⟩
            injection h with h
            exact h.symm
          | null => exact absurd rfl hf
          | bool b => simp at h
          | num q => simp at h
          | str s => simp at h
    · have hs' : success_check fs = false := by simpa using hs
      simp only [extract_live_data, hs', Bool.not_false, if_true] at h
      exact Or.inl (by injection h with h; exact h.symm)
  | null => simp [extract_live_data] at h
  | bool b => simp [extract_live_data] at h
  | num q => simp [extract_live_data] at h
  | str s => simp [extract_live_data] at h
  | arr xs => simp [extract_live_data] at h

/-! ### Claim C8 -/

/-- C8: whatever the API outcome (success, non-success response, or empty
data), the emitted output carries exactly the key set of the default
template, in template order: merging the normalized record never adds a key
outside the template, and any template key absent from the merged-in record
keeps the template's default value. -/
theorem c8_output_always_full_template (now : String) (r : Json)
    (out : List (String × Json)) (h : build_output now r = .ok out) :
    out.map Prod.fst = (default_output now).map Prod.fst
    ∧ (∀ (upd : List (String × Json)) (k : String), alookup upd k = none →
        alookup (dict_update (default_output now) upd) k = alookup (default_output now) k) := by
  have hkeys : (default_output now).map Prod.fst = (default_output "").map Prod.fst := rfl
  have hupd_keys : ∀ rec : List (String × Json),
      (∀ kv ∈ rec, (alookup (default_output now) kv.1).isSome = true) →
      ((dict_set (dict_update (default_output now) rec) "success" (Json.bool true)).map
        Prod.fst) = (default_output now).map Prod.fst := by
    intro rec hrec
    have hku : (dict_update (default_output now) rec).map Prod.fst
        = (default_output now).map Prod.fst := keys_dict_update _ _ hrec
    have hset : (alookup (dict_update (default_output now) rec) "success").isSome = true := by
      rw [alookup_isSome_eq, hku, hkeys]
      decide
    rw [keys_dict_set _ _ _ hset, hku]
  have hrec_of_blr : ∀ (dfs : List (String × Json)), ∀ kv ∈ build_live_record dfs,
      (alookup (default_output now) kv.1).isSome = true := by
    have hall : ∀ x ∈ (build_live_record ([] : List (String × Json))).map Prod.fst,
        ((default_output "").map Prod.fst).contains x = true := by decide
    intro dfs kv hkv
    have hk : kv.1 ∈ (build_live_record dfs).map Prod.fst := List.mem_map_of_mem Prod.fst hkv
    rw [build_live_record_keys] at hk
    rw [alookup_isSome_eq, hkeys]
    exact hall kv.1 hk
  constructor
  · cases r with
    | obj fs =>
      by_cases hs : success_check fs
      · rcases hx : extract_live_data (Json.obj fs) with e | rec
        · simp [build_output, is_api_success, hs, hx] at h
        · have h2 : build_output now (Json.obj fs)
              = .ok (dict_set (dict_update (default_output now) rec)
                  "success" (Json.bool true)) := by
            simp [build_output, is_api_success, hs, hx]
          rw [h2] at h
          injection h with h
          subst h
          rcases extract_live_data_shape _ _ hx with hrec | ⟨dfs, hrec⟩
          · subst hrec
            exact hupd_keys [] (by intro kv hkv; exact absurd hkv (List.not_mem_nil kv))
          · subst hrec
            exact hupd_keys _ (hrec_of_blr dfs)
      · have hs' : success_check fs = false := by simpa using hs
        have h2 : build_output now (Json.obj fs) = .ok (default_output now) := by
          simp [build_output, is_api_success, hs']
        rw [h2] at h
        injection h with h
        subst h
        rfl
    | null => simp [build_output, is_api_success] at h
    | bool b => simp [build_output, is_api_success] at h
    | num q => simp [build_output, is_api_success] at h
    | str s => simp [build_output, is_api_success] at h
    | arr xs => simp [build_output, is_api_success] at h
  · intro upd k hk
    unfold dict_update
    rw [alookup_append, alookup_map_upd, hk]
    cases hbase : alookup (default_output now) k with
    | some v => simp
    | none => simp [alookup_filter_none _ _ _ hk]

/-- Witness for C8 at the example success response and at a failing response:
both outputs keep exactly the template's keys. -/
theorem c8_witness :
    ((dict_set (dict_update (default_output "T") (build_live_record c4_device))
        "success" (Json.bool true)).map Prod.fst)
      = (default_output "T").map Prod.fst
    ∧ ((default_output "T").map Prod.fst) = (default_output "T").map Prod.fst :=
  ⟨(c8_output_always_full_template "T" c4_response _ rfl).1,
   (c8_output_always_full_template "T" (Json.obj [("status", Json.num 500)])
      (default_output "T") rfl).1⟩
